import Mathlib

/-!
Shallow embedding of the RPC marshaling layer of `monero-rpc-rs`
(`src/lib.rs`): parameter-payload construction (`RpcParams` and its
conversion to the wire `Params` type), the `TransferPriority` wire codec,
the height-range translation of `WalletClient::get_transfers`, the
not-found error classification of `WalletClient::get_transfer`, the
envelope unwrapping of `MoneroResult`, the optional-field omission of
`WalletClient::transfer` and `WalletClient::create_address`, and the
version decomposition of `WalletClient::get_version`.

Machine integers (`u8`, `u32`, `u64`) are embedded as `Nat` with explicit
bounds or explicit modular/saturating arithmetic where the source relies on
it; the one place the source performs an unchecked subtraction that can
underflow (`b - 1` on the lower height bound) is modelled as an `Except`
whose error value stands for the Rust panic.
-/

set_option autoImplicit false

namespace MoneroRpc

/-- Embedding of `serde_json::Value`: the JSON values that appear in built
parameter payloads. -/
inductive JsonVal where
  | null : JsonVal
  | bool : Bool → JsonVal
  | num : Nat → JsonVal
  | str : String → JsonVal
  | arr : List JsonVal → JsonVal
  | obj : List (String × JsonVal) → JsonVal
deriving Repr

/-- Embedding of `jsonrpc_core::Params`, the payload type handed to the
transport caller: positional array, named map, or the distinguished empty
variant. -/
inductive Params where
  | array : List JsonVal → Params
  | map : List (String × JsonVal) → Params
  | none : Params
deriving Repr

/-- Embedding of the crate-private `RpcParams` builder enum
(`src/lib.rs:26-30`): a lazily built positional sequence, named sequence,
or nothing. The lazy iterators are embedded as the lists they yield, in
yield order. -/
inductive RpcParams where
  | array : List JsonVal → RpcParams
  | map : List (String × JsonVal) → RpcParams
  | none : RpcParams
deriving Repr

/-- Modelled from the spec: `Params::Map` holds the external
`serde_json::Map` type, whose ordering behaviour is fixed by the crate
manifest (absent from `src/`); per the spec, the named mapping has unique
keys and preserves insertion order, so `collect` folds the yielded pairs
into a map that keeps the first-insertion position of each key and lets a
later duplicate overwrite the value in place. -/
def insertNamed (acc : List (String × JsonVal)) (kv : String × JsonVal) :
    List (String × JsonVal) :=
  if acc.any (fun p => p.1 = kv.1) then
    acc.map (fun p => if p.1 = kv.1 then (p.1, kv.2) else p)
  else acc ++ [kv]

/-- The fold of `insertNamed` over the yielded pairs, starting empty. -/
def collectNamed (l : List (String × JsonVal)) : List (String × JsonVal) :=
  l.foldl insertNamed []

/-- Embedding of `impl From<RpcParams> for Params` (`src/lib.rs:48-56`):
`Map(v)` collects the yielded pairs into the wire map, `Array(v)` collects
the yielded values, `None` maps to the distinguished empty variant. -/
def RpcParams.toParams : RpcParams → Params
  | .map v => Params.map (collectNamed v)
  | .array v => Params.array v
  | .none => Params.none

/-- Embedding of the `TransferPriority` enum (defined in the models module,
used by the codec impls in `src/lib.rs:322-355`). -/
inductive TransferPriority where
  | Default : TransferPriority
  | Unimportant : TransferPriority
  | Elevated : TransferPriority
  | Priority : TransferPriority
deriving Repr, DecidableEq

/-- Embedding of `impl Serialize for TransferPriority`
(`src/lib.rs:322-334`): each variant maps to a `u8` in 0-3. -/
def TransferPriority.serialize : TransferPriority → Nat
  | .Default => 0
  | .Unimportant => 1
  | .Elevated => 2
  | .Priority => 3

/-- The decode failure of the `TransferPriority` deserializer: the Rust
code produces a custom serde error naming the invalid variant value. -/
inductive DeError where
  | invalidVariant : Nat → DeError
deriving Repr, DecidableEq

/-- Embedding of `impl Deserialize for TransferPriority`
(`src/lib.rs:336-355`): 0-3 decode to the four variants, any other `u8`
value is a decode error naming the offending value. -/
def TransferPriority.deserialize : Nat → Except DeError TransferPriority
  | 0 => .ok .Default
  | 1 => .ok .Unimportant
  | 2 => .ok .Elevated
  | 3 => .ok .Priority
  | (n + 4) => .error (.invalidVariant (n + 4))

/-- C5: each of the four `TransferPriority` variants encodes to its
integer in 0-3, decoding is the exact inverse on all four variants, and
decoding any integer outside 0-3 (in particular 4 and 255) fails with the
out-of-range decode error rather than clamping. -/
theorem transfer_priority_roundtrip :
    TransferPriority.serialize .Default = 0 ∧
    TransferPriority.serialize .Unimportant = 1 ∧
    TransferPriority.serialize .Elevated = 2 ∧
    TransferPriority.serialize .Priority = 3 ∧
    (∀ p : TransferPriority,
      TransferPriority.deserialize (TransferPriority.serialize p) = .ok p) ∧
    TransferPriority.deserialize 4 = .error (.invalidVariant 4) ∧
    TransferPriority.deserialize 255 = .error (.invalidVariant 255) ∧
    (∀ n : Nat, 4 ≤ n →
      TransferPriority.deserialize n = .error (.invalidVariant n)) := by
  refine ⟨rfl, rfl, rfl, rfl, ?_, rfl, rfl, ?_⟩
  · intro p; cases p <;> rfl
  · intro n hn
    obtain ⟨m, rfl⟩ := Nat.exists_eq_add_of_le hn
    rw [Nat.add_comm]
    rfl

/-- Witness for C5: the universally quantified conjuncts instantiated at
`TransferPriority.Priority` and at 7. -/
theorem transfer_priority_roundtrip_witness :
    TransferPriority.deserialize (TransferPriority.serialize .Priority) =
      .ok .Priority ∧
    TransferPriority.deserialize 7 = .error (.invalidVariant 7) :=
  ⟨transfer_priority_roundtrip.2.2.2.2.1 .Priority,
   transfer_priority_roundtrip.2.2.2.2.2.2.2 7 (by decide)⟩

/-- Embedding of `std::ops::Bound<u64>`: one end of a height range. -/
inductive HBound where
  | included : Nat → HBound
  | excluded : Nat → HBound
  | unbounded : HBound
deriving Repr, DecidableEq

/-- Embedding of the lower-bound arm of the height-range translation in
`WalletClient::get_transfers` (`src/lib.rs:669-675`):
`Included(b) => Some(b - 1)` is an unchecked `u64` subtraction, which
underflows at `b = 0` (a panic in debug builds), modelled as the `Except`
error; `Excluded(b) => Some(b)`; `Unbounded => None`. -/
def minHeightParam : HBound → Except Unit (Option Nat)
  | .included b => if b = 0 then .error () else .ok (some (b - 1))
  | .excluded b => .ok (some b)
  | .unbounded => .ok Option.none

/-- Embedding of the upper-bound arm of the height-range translation in
`WalletClient::get_transfers` (`src/lib.rs:677-683`): `Included(b) =>
Some(b)`; `Excluded(b) => Some(b.checked_sub(1).unwrap_or(0))`, which is
exactly truncated subtraction on `Nat`; `Unbounded => None`. -/
def maxHeightParam : HBound → Option Nat
  | .included b => some b
  | .excluded b => some (b - 1)
  | .unbounded => Option.none

/-- Embedding of `GetTransfersSelector` (defined in the models module) as
destructured by `WalletClient::get_transfers` (`src/lib.rs:650-655`): the
category flags, the optional height range (as its two bounds), and the two
optional index filters. -/
structure GetTransfersSelector where
  category_selector : List (String × Bool)
  filter_by_height : Option (HBound × HBound)
  account_index : Option Nat
  subaddr_indices : Option (List Nat)

/-- Embedding of the inner sequence built when the height filter is
present (`src/lib.rs:666-683`): `filter_by_height = true` followed by the
translated optional `min_height` and `max_height`; the `Except` error
stands for the panic of the unchecked lower-bound subtraction. -/
def heightFilterParams (lo hi : HBound) :
    Except Unit (List (String × JsonVal)) :=
  match minHeightParam lo with
  | .error e => .error e
  | .ok mn =>
    .ok ([("filter_by_height", JsonVal.bool true)]
      ++ (mn.map (fun b => ("min_height", JsonVal.num b))).toList
      ++ ((maxHeightParam hi).map
          (fun b => ("max_height", JsonVal.num b))).toList)

/-- The pairs yielded by `get_transfers` before the height filter: the
category flags. -/
def transfersCategoryPart (s : GetTransfersSelector) :
    List (String × JsonVal) :=
  s.category_selector.map (fun cb => (cb.1, JsonVal.bool cb.2))

/-- The pairs yielded by `get_transfers` after the height filter: the
optional `account_index` and `subaddr_indices`. -/
def transfersIndexPart (s : GetTransfersSelector) :
    List (String × JsonVal) :=
  (s.account_index.map (fun v => ("account_index", JsonVal.num v))).toList
    ++ (s.subaddr_indices.map
        (fun v => ("subaddr_indices",
          JsonVal.arr (v.map (fun n => JsonVal.num n))))).toList

/-- Embedding of the parameter sequence built by
`WalletClient::get_transfers` (`src/lib.rs:657-689`), in yield order:
category pairs, then — when the height filter is present — the
`filter_by_height`/`min_height`/`max_height` block, then the optional
`account_index` and `subaddr_indices`. -/
def getTransfersParams (s : GetTransfersSelector) :
    Except Unit (List (String × JsonVal)) :=
  match s.filter_by_height with
  | Option.none =>
    .ok (transfersCategoryPart s ++ transfersIndexPart s)
  | some (lo, hi) =>
    match heightFilterParams lo hi with
    | .error e => .error e
    | .ok hp => .ok (transfersCategoryPart s ++ hp ++ transfersIndexPart s)

/-- The selector passing the range `5..=10` and nothing else, as in the
spec's concrete test case. -/
def rangeFiveToTenSelector : GetTransfersSelector :=
  ⟨[], some (.included 5, .included 10), Option.none, Option.none⟩

/-- The selector passing a fully unbounded height range and nothing
else. -/
def unboundedRangeSelector : GetTransfersSelector :=
  ⟨[], some (.unbounded, .unbounded), Option.none, Option.none⟩

/-- C1: the height-range translation of `get_transfers` follows the
spec's table wherever the lower-bound subtraction is defined: `Included b`
below (for `1 ≤ b`) gives `min_height = b - 1`, `Excluded b` below gives
`min_height = b`, `Unbounded` gives none; `Included b` above gives
`max_height = b`, `Excluded b` above gives the saturating `b - 1`,
`Unbounded` gives none; and the range `5..=10` yields exactly
`filter_by_height = true`, `min_height = 4`, `max_height = 10`. -/
theorem get_transfers_height_translation :
    (∀ b : Nat, 1 ≤ b → minHeightParam (.included b) = .ok (some (b - 1))) ∧
    (∀ b : Nat, minHeightParam (.excluded b) = .ok (some b)) ∧
    minHeightParam .unbounded = .ok Option.none ∧
    (∀ b : Nat, maxHeightParam (.included b) = some b) ∧
    (∀ b : Nat, maxHeightParam (.excluded b) = some (max (b - 1) 0)) ∧
    maxHeightParam .unbounded = Option.none ∧
    getTransfersParams rangeFiveToTenSelector =
      .ok [("filter_by_height", JsonVal.bool true),
           ("min_height", JsonVal.num 4),
           ("max_height", JsonVal.num 10)] := by
  refine ⟨?_, fun b => rfl, rfl, fun b => rfl, fun b => ?_, rfl, rfl⟩
  · intro b hb
    have hb0 : b ≠ 0 := Nat.one_le_iff_ne_zero.mp hb
    simp [minHeightParam, hb0]
  · simp [maxHeightParam]

/-- Witness for C1: the quantified conjuncts instantiated at concrete
heights 5 and 7. -/
theorem get_transfers_height_translation_witness :
    minHeightParam (.included 5) = .ok (some 4) ∧
    minHeightParam (.excluded 7) = .ok (some 7) ∧
    maxHeightParam (.included 10) = some 10 ∧
    maxHeightParam (.excluded 7) = some (max 6 0) :=
  ⟨get_transfers_height_translation.1 5 (by decide),
   get_transfers_height_translation.2.1 7,
   get_transfers_height_translation.2.2.2.1 10,
   get_transfers_height_translation.2.2.2.2.1 7⟩

/-- Whatever the bounds, a successfully built height-filter block starts
with the `filter_by_height = true` pair. -/
theorem mem_heightFilterParams (lo hi : HBound) (hp : List (String × JsonVal))
    (h : heightFilterParams lo hi = .ok hp) :
    ("filter_by_height", JsonVal.bool true) ∈ hp := by
  unfold heightFilterParams at h
  cases hlo : minHeightParam lo with
  | error e => rw [hlo] at h; exact absurd h (by simp)
  | ok mn =>
    rw [hlo] at h
    injection h with h
    subst h
    simp

/-- C3: whenever the height filter is present in the selector and the
translation completes, the emitted payload contains
`filter_by_height = true`, whatever the two bounds are; and for the fully
unbounded range the payload is exactly that single pair, with neither
`min_height` nor `max_height` present. -/
theorem get_transfers_filter_by_height_flag :
    (∀ (s : GetTransfersSelector) (r : HBound × HBound),
      s.filter_by_height = some r →
      ∀ out, getTransfersParams s = .ok out →
        ("filter_by_height", JsonVal.bool true) ∈ out) ∧
    getTransfersParams unboundedRangeSelector =
      .ok [("filter_by_height", JsonVal.bool true)] := by
  refine ⟨?_, rfl⟩
  intro s r hr out hout
  obtain ⟨lo, hi⟩ := r
  unfold getTransfersParams at hout
  rw [hr] at hout
  dsimp only at hout
  cases hhp : heightFilterParams lo hi with
  | error e => rw [hhp] at hout; exact absurd hout (by simp)
  | ok hp =>
    rw [hhp] at hout
    injection hout with hout
    subst hout
    exact List.mem_append.mpr
      (Or.inl (List.mem_append.mpr (Or.inr (mem_heightFilterParams lo hi hp hhp))))

/-- Witness for C3: the flag-membership conjunct applied to a selector
carrying the concrete range `5..=10`. -/
theorem get_transfers_filter_by_height_flag_witness :
    ("filter_by_height", JsonVal.bool true) ∈
      [("filter_by_height", JsonVal.bool true),
       ("min_height", JsonVal.num 4),
       ("max_height", JsonVal.num 10)] :=
  get_transfers_filter_by_height_flag.1 rangeFiveToTenSelector
    (.included 5, .included 10) rfl _ rfl

/-- C4: the lower-bound translation is not total: a lower bound
`Included 0` makes the unchecked `u64` subtraction `0 - 1` underflow, so
the whole parameter construction aborts (a debug-build panic); every
lower bound `Included b` with `1 ≤ b` is safe; and the upper-bound
`Excluded` arm uses the checked saturating subtraction, which is total —
in particular `Excluded 0` yields `max_height = 0` without aborting. -/
theorem get_transfers_included_zero_underflows :
    minHeightParam (.included 0) = .error () ∧
    (∀ (s : GetTransfersSelector) (hi : HBound),
      s.filter_by_height = some (.included 0, hi) →
      getTransfersParams s = .error ()) ∧
    (∀ b : Nat, 1 ≤ b → minHeightParam (.included b) = .ok (some (b - 1))) ∧
    (∀ b : Nat, maxHeightParam (.excluded b) = some (b - 1)) ∧
    maxHeightParam (.excluded 0) = some 0 := by
  refine ⟨rfl, ?_, ?_, fun b => rfl, rfl⟩
  · intro s hi hr
    unfold getTransfersParams
    rw [hr]
    simp [heightFilterParams, minHeightParam]
  · intro b hb
    have hb0 : b ≠ 0 := Nat.one_le_iff_ne_zero.mp hb
    simp [minHeightParam, hb0]

/-- Witness for C4: the quantified conjuncts instantiated at a concrete
selector whose range is `0..=10` and at height 1. -/
theorem get_transfers_included_zero_underflows_witness :
    getTransfersParams
      ⟨[], some (.included 0, .included 10), Option.none, Option.none⟩ =
      .error () ∧
    minHeightParam (.included 1) = .ok (some 0) :=
  ⟨get_transfers_included_zero_underflows.2.1 _ (.included 10) rfl,
   get_transfers_included_zero_underflows.2.2.1 1 (by decide)⟩

/-- Embedding of the outcome of `JsonRpcCaller::call` as consumed by
`WalletClient::get_transfer` (`src/lib.rs:710-724`): the outer
`anyhow::Result` failure is a transport-level error, the inner
`jsonrpc_core::Result` failure carries the node's numeric error code, and
the double success carries the decoded transfer. Error codes are embedded
as the integer value carried on the wire; `ErrorCode::ServerError(-8)`
is code value -8 (the reserved JSON-RPC codes parse to their own named
variants, none of which compares equal to `ServerError(-8)`). -/
inductive CallOutcome (α : Type) where
  | transportError : CallOutcome α
  | rpcError : Int → CallOutcome α
  | success : α → CallOutcome α
deriving Repr

/-- The failure type `get_transfer` surfaces to its caller: a propagated
transport failure or a propagated node error with its code. -/
inductive GetTransferError where
  | transport : GetTransferError
  | rpc : Int → GetTransferError
deriving Repr, DecidableEq

/-- Embedding of the classification logic of `WalletClient::get_transfer`
(`src/lib.rs:710-727`): a transport failure propagates (the `?` on the
outer result), a node error with code `ServerError(-8)` becomes
`Ok(None)`, any other node error propagates, and a success wraps the
transfer in `Some`. -/
def getTransferClassify {α : Type} : CallOutcome α →
    Except GetTransferError (Option α)
  | .transportError => .error .transport
  | .rpcError code =>
    if code = -8 then .ok Option.none else .error (.rpc code)
  | .success v => .ok (some v)

/-- C2: on single-transfer lookup, the node error code -8 yields the
successful absent result `Ok(None)`; every other node error code yields a
propagated failure carrying that code; a transport-level failure
propagates; and a node success yields the present transfer. -/
theorem get_transfer_not_found_classification :
    (∀ (α : Type),
      getTransferClassify (α := α) (.rpcError (-8)) = .ok Option.none) ∧
    (∀ (α : Type) (code : Int), code ≠ -8 →
      getTransferClassify (α := α) (.rpcError code) = .error (.rpc code)) ∧
    (∀ (α : Type),
      getTransferClassify (α := α) .transportError = .error .transport) ∧
    (∀ (α : Type) (v : α), getTransferClassify (.success v) = .ok (some v)) := by
  refine ⟨fun α => rfl, ?_, fun α => rfl, fun α v => rfl⟩
  intro α code hc
  simp [getTransferClassify, hc]

/-- Witness for C2: the classification applied at code -1 (propagates)
and at code -8 (absent result), over the unit payload type. -/
theorem get_transfer_not_found_classification_witness :
    getTransferClassify (α := Unit) (.rpcError (-1)) = .error (.rpc (-1)) ∧
    getTransferClassify (α := Unit) (.rpcError (-8)) = .ok Option.none :=
  ⟨get_transfer_not_found_classification.2.1 Unit (-1) (by decide),
   get_transfer_not_found_classification.1 Unit⟩

/-- Modelled from the spec: the `MoneroResult` envelope type and its
`into_inner` unwrapping live in the repository's models/util modules,
which are absent from `src/` (only the use sites such as
`get_block_count`, `src/lib.rs:180-186`, appear there); per the spec, the
envelope nests the payload under a `status` field that must equal the
fixed success token `"OK"`. -/
structure MoneroResult (α : Type) where
  status : String
  result : α

/-- The outcome of unwrapping an envelope: the inner payload on the
success token, otherwise the `BadStatus` protocol error carrying the
status string. -/
inductive UnwrapOutcome (α : Type) where
  | inner : α → UnwrapOutcome α
  | badStatus : String → UnwrapOutcome α
deriving Repr

/-- Modelled from the spec: unwrapping returns the inner value when
`status` equals the success token and the `BadStatus` protocol error
carrying the status string otherwise. -/
def MoneroResult.into_inner {α : Type} (e : MoneroResult α) :
    UnwrapOutcome α :=
  if e.status = "OK" then .inner e.result else .badStatus e.status

/-- C6: unwrapping an envelope whose status differs from the success
token always yields `BadStatus` with that status string and never the
inner payload; the inner payload is returned exactly when the status
equals the success token. -/
theorem envelope_unwrap_bad_status :
    (∀ (α : Type) (e : MoneroResult α), e.status ≠ "OK" →
      e.into_inner = .badStatus e.status ∧ ∀ v, e.into_inner ≠ .inner v) ∧
    (∀ (α : Type) (e : MoneroResult α), e.status = "OK" →
      e.into_inner = .inner e.result) := by
  constructor
  · intro α e he
    have h : e.into_inner = .badStatus e.status := by
      simp [MoneroResult.into_inner, he]
    exact ⟨h, fun v hv => by rw [h] at hv; exact UnwrapOutcome.noConfusion hv⟩
  · intro α e he
    simp [MoneroResult.into_inner, he]

/-- Witness for C6: a concrete envelope with status `"BUSY"` unwraps to
`BadStatus`, and one with status `"OK"` unwraps to its payload. -/
theorem envelope_unwrap_bad_status_witness :
    (MoneroResult.mk "BUSY" (42 : Nat)).into_inner = .badStatus "BUSY" ∧
    (MoneroResult.mk "OK" (42 : Nat)).into_inner = .inner 42 :=
  ⟨(envelope_unwrap_bad_status.1 Nat ⟨"BUSY", 42⟩ (by decide)).1,
   envelope_unwrap_bad_status.2 Nat ⟨"OK", 42⟩ rfl⟩

/-- The payload built by `DaemonClient::get_block_count`
(`src/lib.rs:180-186`): `RpcParams::array(empty())`, i.e. an empty
positional sequence, converted for the transport caller. -/
def getBlockCountParams : Params :=
  (RpcParams.array []).toParams

/-- The payload built by `WalletClient::get_accounts`
(`src/lib.rs:464-470`): a named sequence holding only the optional `tag`
pair, converted for the transport caller. -/
def getAccountsParams (tag : Option String) : Params :=
  (RpcParams.map ((tag.map (fun v => ("tag", JsonVal.str v))).toList)).toParams

/-- The payload built by `WalletClient::get_height`
(`src/lib.rs:539-543`): `RpcParams::None`, converted for the transport
caller. -/
def getHeightParams : Params :=
  RpcParams.none.toParams

/-- The payload built by `WalletClient::export_key_images`
(`src/lib.rs:760-762`): `RpcParams::None`, converted for the transport
caller. -/
def exportKeyImagesParams : Params :=
  RpcParams.none.toParams

/-- The payload built by `WalletClient::get_version`
(`src/lib.rs:829-832`): `RpcParams::None`, converted for the transport
caller. -/
def getVersionParams : Params :=
  RpcParams.none.toParams

/-- Counterexample for C8: `get_block_count` has an entirely empty
parameter set yet hands the transport caller an empty positional array,
not the distinguished none variant; `get_accounts` without a tag hands an
empty map, not the none variant. -/
theorem empty_params_not_always_none :
    getBlockCountParams = Params.array [] ∧
    getBlockCountParams ≠ Params.none ∧
    getAccountsParams Option.none = Params.map [] ∧
    getAccountsParams Option.none ≠ Params.none := by
  refine ⟨rfl, fun h => Params.noConfusion h, rfl, fun h => Params.noConfusion h⟩

/-- C8 amended: the builder's none variant converts to the distinguished
`Params::None`, and the calls built with `RpcParams::None` (`get_height`,
`export_key_images`, `get_version`) hand that variant to the transport
caller; but an entirely empty parameter set is not always the none
variant: `get_block_count` hands an empty array and `get_accounts`
without a tag hands an empty map. -/
theorem empty_params_variants :
    RpcParams.none.toParams = Params.none ∧
    getHeightParams = Params.none ∧
    exportKeyImagesParams = Params.none ∧
    getVersionParams = Params.none ∧
    getBlockCountParams = Params.array [] ∧
    getAccountsParams Option.none = Params.map [] :=
  ⟨rfl, rfl, rfl, rfl, rfl, rfl⟩

/-- Folding `insertNamed` over pairs whose keys are fresh for the
accumulator and mutually distinct appends them in yield order. -/
theorem foldl_insertNamed_of_nodup (l : List (String × JsonVal)) :
    ∀ acc : List (String × JsonVal),
      ((acc ++ l).map Prod.fst).Nodup →
      l.foldl insertNamed acc = acc ++ l := by
  induction l with
  | nil => intro acc h; simp
  | cons kv t ih =>
    intro acc h
    have hnotin : kv.1 ∉ acc.map Prod.fst := by
      have h2 := (List.nodup_append.mp (by simpa using h)).2.2
      intro hmem
      exact h2 hmem (List.mem_cons_self _ _)
    have hany : (acc.any (fun p => p.1 = kv.1)) = false := by
      rw [Bool.eq_false_iff]
      intro hc
      obtain ⟨p, hp, hpe⟩ := List.any_eq_true.mp hc
      exact hnotin (of_decide_eq_true hpe ▸ List.mem_map_of_mem Prod.fst hp)
    have hstep : insertNamed acc kv = acc ++ [kv] := by
      simp only [insertNamed, hany, Bool.false_eq_true, if_false]
    rw [List.foldl_cons, hstep,
      ih (acc ++ [kv]) (by simpa [List.append_assoc] using h)]
    simp

/-- C9: for a named parameter sequence with unique keys (the spec's named
mapping), the map handed to the transport caller is exactly the yielded
sequence — the insertion order of the pairs is preserved. -/
theorem named_params_preserve_order (l : List (String × JsonVal))
    (h : (l.map Prod.fst).Nodup) :
    (RpcParams.map l).toParams = Params.map l := by
  have hfold := foldl_insertNamed_of_nodup l [] (by simpa using h)
  simp [RpcParams.toParams, collectNamed, hfold]

/-- Witness for C9: the two `get_block_headers_range` pairs are handed
over in their yield order, `start_height` before `end_height`. -/
theorem named_params_preserve_order_witness :
    (RpcParams.map [("start_height", JsonVal.num 5),
                    ("end_height", JsonVal.num 9)]).toParams =
      Params.map [("start_height", JsonVal.num 5),
                  ("end_height", JsonVal.num 9)] :=
  named_params_preserve_order _ (by decide)

/-- The failure surfaced when a 16-bit conversion of a version component
overflows (`u16::try_from(..)?` in `get_version`). -/
inductive VersionError where
  | outOfRange : Nat → VersionError
deriving Repr, DecidableEq

/-- Embedding of `u16::try_from` on a `u32`-ranged value: identity below
`2^16`, a typed conversion error otherwise, surfaced by `?`. -/
def u16TryFrom (n : Nat) : Except VersionError Nat :=
  if n < 2 ^ 16 then .ok n else .error (.outOfRange n)

/-- Embedding of the decomposition in `WalletClient::get_version`
(`src/lib.rs:834-837`): `major = version >> 16`,
`minor = version - (major << 16)`, both converted to `u16` with `?`
surfacing any conversion failure. -/
def getVersionDecode (version : Nat) : Except VersionError (Nat × Nat) :=
  match u16TryFrom (version >>> 16) with
  | .error e => .error e
  | .ok a =>
    match u16TryFrom (version - ((version >>> 16) <<< 16)) with
    | .error e => .error e
    | .ok b => .ok (a, b)

/-- C10: for every 32-bit version value the decode succeeds with the
major component `v >> 16` (the upper 16 bits) and the minor component
`v - (major << 16) = v mod 2^16` (the lower 16 bits); and whenever a
16-bit conversion of the major component fails, that failure is surfaced
to the caller as the typed out-of-range error. -/
theorem get_version_decomposition :
    (∀ v : Nat, v < 2 ^ 32 →
      getVersionDecode v = .ok (v / 2 ^ 16, v % 2 ^ 16) ∧
      v >>> 16 = v / 2 ^ 16 ∧
      v - ((v >>> 16) <<< 16) = v % 2 ^ 16) ∧
    (∀ v : Nat, ¬ v >>> 16 < 2 ^ 16 →
      getVersionDecode v = .error (.outOfRange (v >>> 16))) := by
  constructor
  · intro v hv
    have hmaj : v >>> 16 = v / 2 ^ 16 := Nat.shiftRight_eq_div_pow v 16
    have hminor : v - ((v >>> 16) <<< 16) = v % 2 ^ 16 := by
      rw [hmaj, Nat.shiftLeft_eq]
      omega
    have hmajlt : v >>> 16 < 2 ^ 16 := by rw [hmaj]; omega
    have hminlt : v % 2 ^ 16 < 2 ^ 16 := Nat.mod_lt _ (by norm_num)
    refine ⟨?_, hmaj, hminor⟩
    unfold getVersionDecode u16TryFrom
    rw [hminor, if_pos hmajlt, if_pos hminlt, hmaj]
  · intro v hv
    unfold getVersionDecode u16TryFrom
    rw [if_neg hv]

/-- Witness for C10: the version value 65538 decodes to major 1, minor 2,
and a value whose upper bits exceed 16 bits surfaces the out-of-range
error. -/
theorem get_version_decomposition_witness :
    getVersionDecode 65538 = .ok (65538 / 2 ^ 16, 65538 % 2 ^ 16) ∧
    getVersionDecode (2 ^ 32) = .error (.outOfRange ((2 ^ 32) >>> 16)) :=
  ⟨(get_version_decomposition.1 65538 (by norm_num)).1,
   get_version_decomposition.2 (2 ^ 32) (by decide)⟩

/-- One lowercase hexadecimal digit. -/
def hexChar (n : Nat) : Char :=
  if n < 10 then Char.ofNat (48 + n) else Char.ofNat (87 + n)

/-- The two lowercase hex digits of one byte. -/
def byteHex (b : Nat) : List Char :=
  [hexChar (b / 16 % 16), hexChar (b % 16)]

/-- The `HashString` wire encoding used for payment ids and transaction
ids: the lowercase hex string of the underlying bytes. -/
def hexOfBytes (bs : List Nat) : String :=
  String.mk ((bs.map byteHex).flatten)

/-- Embedding of `TransferOptions` (defined in the models module) as
consumed by `WalletClient::transfer` (`src/lib.rs:563-578`): every field
is optional. Payment ids are byte lists, serialized through the hex
wrapper. -/
structure TransferOptions where
  account_index : Option Nat
  subaddr_indices : Option (List Nat)
  mixin : Option Nat
  ring_size : Option Nat
  unlock_time : Option Nat
  payment_id : Option (List Nat)
  do_not_relay : Option Bool

/-- Embedding of the parameter sequence built by `WalletClient::transfer`
(`src/lib.rs:553-581`), in yield order: the destination list and the
priority, the seven optional fields (each yielded only when present),
then the three always-present `get_tx_*` flags. Destinations are embedded
as (address string, amount) pairs in iteration order. -/
def transferParams (destinations : List (String × Nat))
    (priority : TransferPriority) (options : TransferOptions) :
    List (String × JsonVal) :=
  [("destinations",
      JsonVal.arr (destinations.map (fun d =>
        JsonVal.obj [("address", JsonVal.str d.1),
                     ("amount", JsonVal.num d.2)]))),
   ("priority", JsonVal.num (TransferPriority.serialize priority))]
    ++ (options.account_index.map
        (fun v => ("account_index", JsonVal.num v))).toList
    ++ (options.subaddr_indices.map
        (fun v => ("subaddr_indices",
          JsonVal.arr (v.map (fun n => JsonVal.num n))))).toList
    ++ (options.mixin.map (fun v => ("mixin", JsonVal.num v))).toList
    ++ (options.ring_size.map (fun v => ("ring_size", JsonVal.num v))).toList
    ++ (options.unlock_time.map
        (fun v => ("unlock_time", JsonVal.num v))).toList
    ++ (options.payment_id.map
        (fun v => ("payment_id", JsonVal.str (hexOfBytes v)))).toList
    ++ (options.do_not_relay.map
        (fun v => ("do_not_relay", JsonVal.bool v))).toList
    ++ [("get_tx_key", JsonVal.bool true),
        ("get_tx_hex", JsonVal.bool true),
        ("get_tx_metadata", JsonVal.bool true)]

/-- Embedding of the parameter sequence built by
`WalletClient::create_address` (`src/lib.rs:427-429`): the account index,
then the label pair only when a label is present. -/
def createAddressParams (account_index : Nat) (label : Option String) :
    List (String × JsonVal) :=
  [("account_index", JsonVal.num account_index)]
    ++ (label.map (fun v => ("label", JsonVal.str v))).toList

/-- Mapping a function over an optional chunk fuses with building it. -/
theorem toList_map_map {α β γ : Type} (o : Option α) (f : α → β)
    (g : β → γ) :
    ((o.map f).toList.map g) = (o.map (fun x => g (f x))).toList := by
  cases o <;> rfl

/-- The keys of the `transfer` payload: the two fixed leading keys, one
key per present optional field, and the three fixed trailing keys;
independent of the destinations and the priority. -/
theorem transferParams_keys (destinations : List (String × Nat))
    (priority : TransferPriority) (options : TransferOptions) :
    (transferParams destinations priority options).map Prod.fst =
      ["destinations", "priority"]
        ++ (options.account_index.map (fun _ => "account_index")).toList
        ++ (options.subaddr_indices.map (fun _ => "subaddr_indices")).toList
        ++ (options.mixin.map (fun _ => "mixin")).toList
        ++ (options.ring_size.map (fun _ => "ring_size")).toList
        ++ (options.unlock_time.map (fun _ => "unlock_time")).toList
        ++ (options.payment_id.map (fun _ => "payment_id")).toList
        ++ (options.do_not_relay.map (fun _ => "do_not_relay")).toList
        ++ ["get_tx_key", "get_tx_hex", "get_tx_metadata"] := by
  simp only [transferParams, List.map_append, toList_map_map, List.map_cons,
    List.map_nil]

/-- A pair drawn from an optional chunk is the chunk's key paired with
the image of the present value. -/
theorem optChunk_mem {α : Type} {k : String} {f : α → JsonVal}
    {o : Option α} {kv : String × JsonVal}
    (h : kv ∈ (o.map (fun v => (k, f v))).toList) : ∃ v, kv = (k, f v) := by
  cases o with
  | none => simp at h
  | some v => exact ⟨v, by simpa using h⟩

/-- Membership in an optional constant-key chunk forces the chunk to be
present and the key to match. -/
theorem mem_constChunk {α : Type} (k k2 : String) (o : Option α) :
    (k ∈ (o.map (fun _ => k2)).toList) ↔ (o.isSome = true ∧ k = k2) := by
  cases o <;> simp

/-- C7: in the `transfer` payload, each absent optional field of
`TransferOptions` (`account_index`, `subaddr_indices`, `mixin`,
`ring_size`, `unlock_time`, `payment_id`, `do_not_relay`) contributes no
pair at all — its key is wholly absent — and no pair of the payload ever
carries a null value; likewise `create_address` with no label yields no
`label` pair. -/
theorem transfer_omits_absent_options :
    (∀ (destinations : List (String × Nat)) (priority : TransferPriority)
        (o : TransferOptions),
      (o.account_index = Option.none →
        "account_index" ∉
          (transferParams destinations priority o).map Prod.fst) ∧
      (o.subaddr_indices = Option.none →
        "subaddr_indices" ∉
          (transferParams destinations priority o).map Prod.fst) ∧
      (o.mixin = Option.none →
        "mixin" ∉ (transferParams destinations priority o).map Prod.fst) ∧
      (o.ring_size = Option.none →
        "ring_size" ∉ (transferParams destinations priority o).map Prod.fst) ∧
      (o.unlock_time = Option.none →
        "unlock_time" ∉
          (transferParams destinations priority o).map Prod.fst) ∧
      (o.payment_id = Option.none →
        "payment_id" ∉ (transferParams destinations priority o).map Prod.fst) ∧
      (o.do_not_relay = Option.none →
        "do_not_relay" ∉
          (transferParams destinations priority o).map Prod.fst) ∧
      (∀ kv ∈ transferParams destinations priority o,
        kv.2 ≠ JsonVal.null)) ∧
    (∀ acct : Nat,
      "label" ∉ (createAddressParams acct Option.none).map Prod.fst) := by
  constructor
  · intro destinations priority o
    refine ⟨?_, ?_, ?_, ?_, ?_, ?_, ?_, ?_⟩
    case _ => intro h; rw [transferParams_keys, h]; simp [mem_constChunk]
    case _ => intro h; rw [transferParams_keys, h]; simp [mem_constChunk]
    case _ => intro h; rw [transferParams_keys, h]; simp [mem_constChunk]
    case _ => intro h; rw [transferParams_keys, h]; simp [mem_constChunk]
    case _ => intro h; rw [transferParams_keys, h]; simp [mem_constChunk]
    case _ => intro h; rw [transferParams_keys, h]; simp [mem_constChunk]
    case _ => intro h; rw [transferParams_keys, h]; simp [mem_constChunk]
    case _ =>
      intro kv hkv
      simp only [transferParams, List.mem_append] at hkv
      rcases hkv with ((((((((h | h) | h) | h) | h) | h) | h) | h) | h)
      · rcases (by simpa using h : _ ∨ _) with rfl | rfl <;> simp
      · obtain ⟨v, rfl⟩ := optChunk_mem h; simp
      · obtain ⟨v, rfl⟩ := optChunk_mem h; simp
      · obtain ⟨v, rfl⟩ := optChunk_mem h; simp
      · obtain ⟨v, rfl⟩ := optChunk_mem h; simp
      · obtain ⟨v, rfl⟩ := optChunk_mem h; simp
      · obtain ⟨v, rfl⟩ := optChunk_mem h; simp
      · obtain ⟨v, rfl⟩ := optChunk_mem h; simp
      · rcases (by simpa using h : _ ∨ _ ∨ _) with rfl | rfl | rfl <;> simp
  · intro acct
    simp [createAddressParams]

/-- Witness for C7: with every optional field absent, the `transfer`
payload contains none of the seven optional keys, no null value, and the
label-less `create_address` payload has no `label` key. -/
theorem transfer_omits_absent_options_witness :
    "account_index" ∉
      (transferParams [("addr", 7)] .Default
        ⟨Option.none, Option.none, Option.none, Option.none, Option.none,
         Option.none, Option.none⟩).map Prod.fst ∧
    "label" ∉ (createAddressParams 0 Option.none).map Prod.fst :=
  ⟨(transfer_omits_absent_options.1 [("addr", 7)] .Default
      ⟨Option.none, Option.none, Option.none, Option.none, Option.none,
       Option.none, Option.none⟩).1 rfl,
   transfer_omits_absent_options.2 0⟩

end MoneroRpc
